import Mathlib

/-!
Shallow embedding of the response-classification and parsing pipeline of
node-steamid-resolver-ts, together with proofs about the claims of its
specification.

The embedding follows the TypeScript source:
  - src/core/xml-parser.ts : parseSteamXML, resolveCustomURLFromRedirect,
    validateSharedfile;
  - src/core/common-utils.ts : withRetry, extractString;
  - src/types/type-guards.ts : isProfileResponse, isGroupResponse,
    isErrorResponse, isEmptyResponse, hasMinimalProfileData;
  - src/types/steam-types.ts : the record interfaces;
  - src/errors/steam-errors.ts : the error classes.

Network effects are made explicit: the body fetched for a URL, the outcome
of the xml2js decode, and the Location header seen by the redirect probe
are parameters of the embedded functions.
-/

deriving instance DecidableEq for Except

namespace SteamResolver

/-! ## JavaScript string primitives

`sContains s sub` models `s.includes(sub)`, `replaceFirstEmpty s pat`
models `s.replace(pat, '')` (JS `replace` with a string pattern removes
only the first occurrence), and `jsSplit s sep` models `s.split(sep)`
for the one-character separators the code uses.  All are structurally
recursive over character lists so that concrete instances evaluate
inside the kernel. -/

/-- Does the first list occur as a leading segment of the second
(character-wise)? -/
def strLeads : List Char → List Char → Bool
  | [], _ => true
  | _ :: _, [] => false
  | p :: ps, c :: cs => p = c && strLeads ps cs

/-- Does `pat` occur contiguously somewhere inside the second list? -/
def strHas (pat : List Char) : List Char → Bool
  | [] => pat.isEmpty
  | c :: cs => strLeads pat (c :: cs) || strHas pat cs

/-- Model of JS `s.includes(sub)`. -/
def sContains (s sub : String) : Bool :=
  strHas sub.toList s.toList

/-- Remove the first occurrence of `pat` from a character list. -/
def dropFirstOccL (pat : List Char) : List Char → List Char
  | [] => []
  | c :: cs =>
    if strLeads pat (c :: cs) then (c :: cs).drop pat.length
    else c :: dropFirstOccL pat cs

/-- Model of JS `s.replace(pat, '')`: only the first occurrence of `pat`
is removed. -/
def replaceFirstEmpty (s pat : String) : String :=
  ⟨dropFirstOccL pat.toList s.toList⟩

/-- Split a character list at every occurrence of `sep` (the segments, in
order; adjacent separators give empty segments). -/
def splitOnCharL (sep : Char) : List Char → List (List Char)
  | [] => [[]]
  | c :: cs =>
    if c = sep then [] :: splitOnCharL sep cs
    else
      match splitOnCharL sep cs with
      | [] => [[c]]
      | s :: rest => (c :: s) :: rest

/-- Model of JS `s.split(sep)` for a one-character separator. -/
def jsSplit (s : String) (sep : Char) : List String :=
  (splitOnCharL sep s.toList).map (fun l => ⟨l⟩)

/-- The code points stripped by JS `String.prototype.trim`: the
ECMAScript WhiteSpace set (TAB, VT, FF, SP, NBSP, ZWNBSP and the
Unicode space separators U+1680, U+2000..U+200A, U+202F, U+205F,
U+3000) together with the LineTerminator set (LF, CR, LS, PS). -/
def jsWhitespace (c : Char) : Bool :=
  c = '\t' || c = '\n' || c = '\x0B' || c = '\x0C' || c = '\r' || c = ' '
    || c = '\u00A0' || c = '\u1680'
    || ('\u2000' ≤ c && c ≤ '\u200A')
    || c = '\u2028' || c = '\u2029' || c = '\u202F' || c = '\u205F'
    || c = '\u3000' || c = '\uFEFF'

/-- Model of JS `!s.trim()`: the string is empty after trimming, i.e.
every character is JS whitespace. -/
def trimIsEmpty (s : String) : Bool :=
  s.toList.all jsWhitespace

/-! ## Error taxonomy (src/errors/steam-errors.ts)

`api message code` is `SteamAPIError(message, code)`; the subclasses keep
the identifier they were constructed with; `jsError` is a plain JS
`Error` (only `withRetry` can produce one, for its exhausted-with-no-
captured-error fallback). -/

inductive SteamError where
  | api (message : String) (code : String)
  | profileNotFound (identifier : String)
  | groupNotFound (identifier : String)
  | emptyResponse (identifier : String)
  | jsError (message : String)
  deriving DecidableEq, Repr

/-! ## Data model (src/types/steam-types.ts)

xml2js is run with `explicitArray: true`, so every decoded element value
is a sequence; a field of the decoded tree is `Option (List String)`:
`none` when the key is absent, `some l` when present with value `l`. -/

structure GameInfo where
  gameName : List String
  gameLink : List String
  gameIcon : List String
  gameLogo : List String
  gameLogoSmall : List String
  hoursPlayed : List String
  hoursOnRecord : List String
  statsName : List String
  deriving DecidableEq, Repr

structure MostPlayedGames where
  mostPlayedGame : Option (List GameInfo)
  deriving DecidableEq, Repr

structure GroupInfo where
  isPrimaryAttr : Option String
  groupID64 : List String
  groupName : Option (List String)
  groupURL : Option (List String)
  headline : Option (List String)
  summary : Option (List String)
  avatarIcon : Option (List String)
  avatarMedium : Option (List String)
  avatarFull : Option (List String)
  memberCount : Option (List String)
  membersInChat : Option (List String)
  membersInGame : Option (List String)
  membersOnline : Option (List String)
  deriving DecidableEq, Repr

structure GroupsHolder where
  group : Option (List GroupInfo)
  deriving DecidableEq, Repr

/-- `FullProfileInfo`: the minimal fields plus the extended optional
fields.  Each field is `Option (List String)` so that presence of the
key in the decoded tree is observable (the type guards inspect it). -/
structure FullProfileInfo where
  steamID64 : Option (List String)
  steamID : Option (List String)
  onlineState : Option (List String)
  privacyState : Option (List String)
  visibilityState : Option (List String)
  vacBanned : Option (List String)
  tradeBanState : Option (List String)
  isLimitedAccount : Option (List String)
  stateMessage : Option (List String)
  memberSince : Option (List String)
  steamRating : Option (List String)
  hoursPlayed2Wk : Option (List String)
  customURL : Option (List String)
  avatarIcon : Option (List String)
  avatarMedium : Option (List String)
  avatarFull : Option (List String)
  headline : Option (List String)
  location : Option (List String)
  realname : Option (List String)
  summary : Option (List String)
  mostPlayedGames : Option (List MostPlayedGames)
  groups : Option (List GroupsHolder)
  deriving DecidableEq, Repr

structure GroupDetails where
  groupName : List String
  groupURL : List String
  headline : List String
  summary : List String
  avatarIcon : List String
  avatarMedium : List String
  avatarFull : List String
  memberCount : List String
  membersInChat : List String
  membersInGame : List String
  membersOnline : List String
  deriving DecidableEq, Repr

structure MembersEntry where
  steamID64 : List String
  deriving DecidableEq, Repr

structure FullGroupInfo where
  groupID64 : List String
  groupDetails : List GroupDetails
  memberCount : List String
  totalPages : List String
  currentPage : List String
  startingMember : List String
  nextPageLink : Option (List String)
  members : List MembersEntry
  deriving DecidableEq, Repr

/-- The `response` key of an error envelope; only its `error` key is ever
inspected. -/
structure ErrorEnvelope where
  error : Option (List String)
  deriving DecidableEq, Repr

/-- `RawXMLParseResult`: the decoded tree before discrimination.  The
`otherKeys` field records the names of any further top-level keys (their
content is never inspected by the pipeline; only key presence and the
key count matter). -/
structure RawXMLParseResult where
  profile : Option FullProfileInfo
  memberList : Option FullGroupInfo
  response : Option ErrorEnvelope
  otherKeys : List String
  deriving DecidableEq, Repr

/-- `SteamXMLResponse`: the discriminated union returned by the parser.
`parseSteamXML` itself only ever constructs the `profile` and `group`
variants (error conditions are thrown). -/
inductive SteamXMLResponse where
  | profile (data : FullProfileInfo)
  | group (data : FullGroupInfo)
  | errorResp (error : String)
  | empty (error : String)
  deriving DecidableEq, Repr

/-! ## Helpers and type guards -/

/-- `extractString` (src/core/common-utils.ts): first element of a
decoded sequence, `undefined` when the value is absent or the sequence is
empty. -/
def extractString : Option (List String) → Option String
  | some (s :: _) => some s
  | some [] => none
  | none => none

/-- Model of the JS expression `v || 'Unknown error'`: both `undefined`
and the empty string are falsy and fall back to the default. -/
def orUnknownError (v : Option String) : String :=
  match v with
  | none => "Unknown error"
  | some m => if m = "" then "Unknown error" else m

/-- `isEmptyResponse` (src/types/type-guards.ts): the decode produced
`null`, or an object with zero keys. -/
def isEmptyResponse : Option RawXMLParseResult → Bool
  | none => true
  | some p =>
    p.profile.isNone && p.memberList.isNone && p.response.isNone
      && p.otherKeys.isEmpty

/-- `isErrorResponse` (src/types/type-guards.ts): a `response` key is
present and itself carries an `error` key. -/
def isErrorResponse (p : RawXMLParseResult) : Bool :=
  match p.response with
  | some env => env.error.isSome
  | none => false

/-- `hasMinimalProfileData` (src/types/type-guards.ts): each of the four
required fields is present and is an array.  A present decoded value is
always an array and an array is truthy in JS even when empty, so both JS
checks collapse to key presence. -/
def hasMinimalProfileData (p : FullProfileInfo) : Bool :=
  p.steamID64.isSome && p.steamID.isSome && p.onlineState.isSome
    && p.privacyState.isSome

/-! ## The parsing pipeline (src/core/xml-parser.ts) -/

/-- `resolveCustomURLFromRedirect` (src/core/xml-parser.ts).  The network
is abstracted by `redirectLoc`: the `Location` header of the manual-
redirect probe, `none` when the request failed or no header was present
(both return `null` in the source). -/
def resolveCustomURLFromRedirect (redirectLoc : Option String) : Option String :=
  match redirectLoc with
  | none => none
  | some location =>
    if sContains location "steamcommunity.com/id/" then
      let split0 := jsSplit location '/'
      let split := if split0.getLast? == some "" then split0.dropLast else split0
      match split.getLast? with
      | some c => if c == "" then none else some c
      | none => none
    else none

/-- The value the `/id/` recovery branch computes from the request URL:
`split[split.length - 1]?.replace('?xml=1', '')`, read as the empty
string when the split is empty. -/
def idSegment (url : String) : String :=
  ((jsSplit url '/').getLast?.map (fun s => replaceFirstEmpty s "?xml=1")).getD ""

/-- The private-profile customURL recovery block of `parseSteamXML`
(src/core/xml-parser.ts, the body of
`if (profile.privacyState && extractString(profile.privacyState) !== 'public')`).
Both URL-shape branches run in sequence, exactly as in the source. -/
def recoverCustomURL (url : String) (profile : FullProfileInfo)
    (redirectLoc : Option String) : FullProfileInfo :=
  if profile.privacyState.isSome
      && (extractString profile.privacyState != some "public") then
    let profile1 :=
      if sContains url "steamcommunity.com/profiles/" then
        match resolveCustomURLFromRedirect redirectLoc with
        | some c => { profile with customURL := some [c] }
        | none => profile
      else profile
    if sContains url "steamcommunity.com/id/" then
      let c := idSegment url
      if c != "" then { profile1 with customURL := some [c] } else profile1
    else profile1
  else profile

/-- The error-envelope interpretation block of `parseSteamXML`
(src/core/xml-parser.ts, the `isErrorResponse(parsed)` branch): the
substring rules over the extracted message, checked in the source's
order. -/
def interpretErrorEnvelope (p : RawXMLParseResult) : SteamError :=
  let errorMessage :=
    orUnknownError (extractString (p.response.bind ErrorEnvelope.error))
  if sContains errorMessage "profile could not be found"
      || sContains errorMessage "The specified profile could not be found"
      || sContains errorMessage "Failed loading profile data" then
    SteamError.profileNotFound "profile"
  else if sContains errorMessage "group could not be found" then
    SteamError.groupNotFound "group"
  else
    SteamError.api errorMessage "PARSE_ERROR"

/-- The post-decode stage of `parseSteamXML`: empty check, error
envelope, profile (validation plus recovery), group, fallback — in the
source's order. -/
def classifyParsed (url : String) (parsed : Option RawXMLParseResult)
    (redirectLoc : Option String) : Except SteamError SteamXMLResponse :=
  if isEmptyResponse parsed then
    Except.error (SteamError.emptyResponse "Steam returned empty response")
  else
    match parsed with
    | none => Except.error (SteamError.emptyResponse "Steam returned empty response")
    | some p =>
      if isErrorResponse p then
        Except.error (interpretErrorEnvelope p)
      else
        match p.profile with
        | some profile =>
          if !hasMinimalProfileData profile then
            Except.error (SteamError.api "Profile missing required fields" "PARSE_ERROR")
          else
            Except.ok (SteamXMLResponse.profile (recoverCustomURL url profile redirectLoc))
        | none =>
          match p.memberList with
          | some g => Except.ok (SteamXMLResponse.group g)
          | none =>
            Except.error (SteamError.api "Unexpected response format from Steam" "PARSE_ERROR")

/-- The pre-decode stage of `parseSteamXML`: the empty-body check and the
pre-parse short-circuit for non-XML bodies.  `some e` means the attempt
throws `e` before the decoder runs. -/
def preParseCheck (url xmlText : String) : Option SteamError :=
  if trimIsEmpty xmlText || xmlText.length < 10 then
    some (SteamError.emptyResponse "Steam returned empty response")
  else if !sContains xmlText "<?xml" && !sContains xmlText "<profile"
      && !sContains xmlText "<memberList" then
    if sContains url "/groups/" || sContains url "memberslistxml" then
      some (SteamError.groupNotFound "group")
    else if sContains xmlText "group could not be found"
        || sContains xmlText "group does not exist"
        || sContains xmlText "Group"
        || (sContains xmlText "<html" && sContains xmlText "error") then
      some (SteamError.groupNotFound "group")
    else
      some (SteamError.api "Invalid XML response from Steam" "PARSE_ERROR")
  else none

/-- One attempt of the body wrapped by `withRetry` inside `parseSteamXML`,
with the effects made explicit: `xmlText` is the fetched body,
`decodeResult` the xml2js outcome (`Except.error msg` when xml2js reports
a parse failure with message `msg`, `Except.ok` the decoded tree or
`null`), `redirectLoc` the `Location` header the redirect probe would
observe. -/
def parseSteamXMLOnce (url xmlText : String)
    (decodeResult : Except String (Option RawXMLParseResult))
    (redirectLoc : Option String) : Except SteamError SteamXMLResponse :=
  match preParseCheck url xmlText with
  | some e => Except.error e
  | none =>
    match decodeResult with
    | Except.error msg =>
      Except.error (SteamError.api ("XML parsing failed: " ++ msg) "PARSE_ERROR")
    | Except.ok parsed => classifyParsed url parsed redirectLoc

/-- `validateSharedfile` (src/core/xml-parser.ts).  `fetchResult` is the
outcome of fetching the page: `Except.error` for a thrown network error,
`Except.ok html` for a retrieved body. -/
def validateSharedfile (fetchResult : Except String String) : Bool :=
  match fetchResult with
  | Except.error _ => false
  | Except.ok html =>
    let isInvalid :=
      sContains html "There was a problem accessing the item"
        || sContains html "That item does not exist"
        || sContains html "error_message"
    !isInvalid

/-! ## Retry driver (src/core/common-utils.ts)

`op attempt` is the outcome of running the wrapped operation on the given
(1-based) attempt; every thrown value is already a `SteamError` (the
source normalises non-`Error` throws with `new Error(String(error))`,
which changes nothing for the error values of this pipeline).  The result
pairs the final outcome with the list of back-off delays slept, in
order. -/

/-- The `for (let attempt = 1; attempt <= maxRetries; attempt++)` loop of
`withRetry`: `rem` is the number of attempts still allowed (so `rem = 1`
means `attempt === maxRetries`), `lastError` the last captured error. -/
def retryLoop {T : Type} (op : Nat → Except SteamError T) (delay : Nat) :
    Nat → Nat → Option SteamError → Except SteamError T × List Nat
  | _, 0, lastError =>
    (Except.error (lastError.getD (SteamError.jsError "Unknown error occurred")), [])
  | attempt, rem + 1, _ =>
    match op attempt with
    | Except.ok v => (Except.ok v, [])
    | Except.error e =>
      if rem = 0 then (Except.error e, [])
      else
        let p := retryLoop op delay (attempt + 1) rem (some e)
        (p.1, delay * attempt :: p.2)

/-- `withRetry(operation, maxRetries, delay)`.  `maxRetries` is kept as an
integer so that non-positive ceilings behave as in the source (the loop
body never runs). -/
def withRetry {T : Type} (op : Nat → Except SteamError T) (maxRetries : Int)
    (delay : Nat) : Except SteamError T × List Nat :=
  retryLoop op delay 1 maxRetries.toNat none

/-! ## Classification shapes

`shapeOf` forgets exactly the payload of a successful profile
classification; it is used to state which part of the classification is
independent of the requesting URL. -/

inductive ResultShape where
  | failed (e : SteamError)
  | profileShape
  | groupShape (g : FullGroupInfo)
  | errorShape (m : String)
  | emptyShape (m : String)
  deriving DecidableEq, Repr

def shapeOf : Except SteamError SteamXMLResponse → ResultShape
  | Except.error e => ResultShape.failed e
  | Except.ok (SteamXMLResponse.profile _) => ResultShape.profileShape
  | Except.ok (SteamXMLResponse.group g) => ResultShape.groupShape g
  | Except.ok (SteamXMLResponse.errorResp m) => ResultShape.errorShape m
  | Except.ok (SteamXMLResponse.empty m) => ResultShape.emptyShape m

/-! ## Concrete fixtures used by witnesses and counterexamples -/

/-- A decoded tree whose single top-level key is `profile`. -/
def rawOfProfile (p : FullProfileInfo) : RawXMLParseResult :=
  { profile := some p, memberList := none, response := none, otherKeys := [] }

/-- A decoded error envelope carrying the given message. -/
def rawErrorEnvelope (msg : String) : RawXMLParseResult :=
  { profile := none, memberList := none
  , response := some { error := some [msg] }, otherKeys := [] }

/-- A minimal private profile without a `customURL` key. -/
def privProfileNoCustom : FullProfileInfo :=
  { steamID64 := some ["76561199106614750"]
  , steamID := some ["Private User"]
  , onlineState := some ["offline"]
  , privacyState := some ["private"]
  , visibilityState := some ["1"]
  , vacBanned := some ["0"]
  , tradeBanState := some ["None"]
  , isLimitedAccount := some ["0"]
  , stateMessage := none, memberSince := none, steamRating := none
  , hoursPlayed2Wk := none
  , customURL := none, avatarIcon := none, avatarMedium := none
  , avatarFull := none
  , headline := none, location := none, realname := none, summary := none
  , mostPlayedGames := none, groups := none }

/-- The same private profile, but with a `customURL` key already present
in the decoded body. -/
def privProfileWithCustom : FullProfileInfo :=
  { privProfileNoCustom with customURL := some ["oldname"] }

/-- A public variant of the same profile. -/
def publicProfile : FullProfileInfo :=
  { privProfileNoCustom with privacyState := some ["public"] }

/-- A candidate profile tree whose `steamID64` key is missing. -/
def invalidProfile : FullProfileInfo :=
  { privProfileNoCustom with steamID64 := none }

/-- A candidate profile tree whose four required keys are all present but
hold empty sequences. -/
def emptySeqProfile : FullProfileInfo :=
  { privProfileNoCustom with
      steamID64 := some [], steamID := some []
    , onlineState := some [], privacyState := some [] }

/-! ## Helper lemmas about the recovery step -/

/-- The recovery step either leaves the record untouched or replaces the
`customURL` field by a one-element sequence; no other field is ever
written. -/
theorem recoverCustomURL_cases (url : String) (p : FullProfileInfo)
    (loc : Option String) :
    recoverCustomURL url p loc = p
      ∨ ∃ c, recoverCustomURL url p loc = { p with customURL := some [c] } := by
  unfold recoverCustomURL
  by_cases h1 : (p.privacyState.isSome
      && (extractString p.privacyState != some "public")) = true
  · simp only [h1, if_true]
    by_cases h2 : sContains url "steamcommunity.com/profiles/" = true
    · simp only [h2, if_true]
      cases hres : resolveCustomURLFromRedirect loc with
      | none =>
        simp only
        by_cases h3 : sContains url "steamcommunity.com/id/" = true
        · simp only [h3, if_true]
          by_cases h4 : (idSegment url != "") = true
          · right
            refine ⟨idSegment url, ?_⟩
            simp [h4]
          · left
            simp [h4]
        · left
          simp [h3]
      | some c =>
        simp only
        by_cases h3 : sContains url "steamcommunity.com/id/" = true
        · simp only [h3, if_true]
          by_cases h4 : (idSegment url != "") = true
          · right
            refine ⟨idSegment url, ?_⟩
            simp [h4]
          · right
            exact ⟨c, by simp [h4]⟩
        · right
          exact ⟨c, by simp [h3]⟩
    · simp only [h2, if_false]
      by_cases h3 : sContains url "steamcommunity.com/id/" = true
      · simp only [h3, if_true]
        by_cases h4 : (idSegment url != "") = true
        · right
          refine ⟨idSegment url, ?_⟩
          simp [h4]
        · left
          simp [h4]
      · left
        simp [h3]
  · left
    simp [h1]

/-- When the privacy state reads exactly `"public"` the recovery step is
the identity. -/
theorem recoverCustomURL_public (url : String) (p : FullProfileInfo)
    (loc : Option String) (h : extractString p.privacyState = some "public") :
    recoverCustomURL url p loc = p := by
  unfold recoverCustomURL
  simp [h]

/-- One-step unfolding of the retry loop on a positive remainder. -/
theorem retryLoop_succ_eq {T : Type} (op : Nat → Except SteamError T)
    (d attempt rem : Nat) (last : Option SteamError) :
    retryLoop op d attempt (rem + 1) last
      = match op attempt with
        | Except.ok v => (Except.ok v, [])
        | Except.error e =>
          if rem = 0 then (Except.error e, [])
          else ((retryLoop op d (attempt + 1) rem (some e)).1,
                d * attempt :: (retryLoop op d (attempt + 1) rem (some e)).2) :=
  rfl

/-- If every attempt fails, the loop re-raises the error captured on the
final attempt. -/
theorem retryLoop_all_fail {T : Type} (op : Nat → Except SteamError T)
    (d : Nat) (f : Nat → SteamError) (hop : ∀ k, op k = Except.error (f k)) :
    ∀ rem attempt last, 1 ≤ rem →
      (retryLoop op d attempt rem last).1 = Except.error (f (attempt + rem - 1)) := by
  intro rem
  induction rem with
  | zero => intro attempt last h; omega
  | succ n ih =>
    intro attempt last _
    cases n with
    | zero => simp [retryLoop, hop attempt]
    | succ m =>
      have hrec := ih (attempt + 1) (some (f attempt)) (by omega)
      rw [retryLoop_succ_eq, hop attempt]
      have hne : ¬ (m + 1 = 0) := by omega
      dsimp only
      simp only [hne, if_false]
      rw [hrec]
      have harith : attempt + 1 + (m + 1) - 1 = attempt + (m + 1 + 1) - 1 := by omega
      rw [harith]

/-- A concrete operation that fails on its first two attempts and
succeeds on the third; used by the retry witnesses. -/
def opFailTwice : Nat → Except SteamError Nat
  | 3 => Except.ok 42
  | n => Except.error (SteamError.api ("attempt " ++ toString n ++ " failed") "NETWORK_ERROR")

/-- An operation that fails on every attempt. -/
def opAlwaysFail (n : Nat) : Except SteamError Nat :=
  Except.error (SteamError.api ("attempt " ++ toString n ++ " failed") "NETWORK_ERROR")

/-- C7: with `maxRetries = 3` and base delay `b`, an operation that fails
on attempts 1 and 2 and succeeds on attempt 3 makes `withRetry` return
the success value after sleeping exactly twice, `b * 1` then `b * 2`;
and when every attempt up to a positive ceiling fails, `withRetry`
re-raises exactly the error captured on the last attempt. -/
theorem withRetry_fail_twice_then_succeed {T : Type}
    (op : Nat → Except SteamError T) (e1 e2 : SteamError) (v : T) (b : Nat)
    (h1 : op 1 = Except.error e1) (h2 : op 2 = Except.error e2)
    (h3 : op 3 = Except.ok v) :
    withRetry op 3 b = (Except.ok v, [b * 1, b * 2])
    ∧ (∀ (op2 : Nat → Except SteamError T) (f : Nat → SteamError) (n : Int),
        1 ≤ n → (∀ k, op2 k = Except.error (f k)) →
        (withRetry op2 n b).1 = Except.error (f n.toNat)) := by
  constructor
  · have ht : (3 : Int).toNat = 3 := by decide
    simp [withRetry, ht, retryLoop, h1, h2, h3]
  · intro op2 f n hn hop
    have ht : 1 ≤ n.toNat := by omega
    have := retryLoop_all_fail op2 b f hop n.toNat 1 none ht
    simpa [withRetry, Nat.add_sub_cancel_left, Nat.add_comm] using this

/-- Witness for C7 at a concrete operation. -/
theorem withRetry_fail_twice_then_succeed_witness :
    opFailTwice 1 = Except.error (SteamError.api "attempt 1 failed" "NETWORK_ERROR")
    ∧ opFailTwice 2 = Except.error (SteamError.api "attempt 2 failed" "NETWORK_ERROR")
    ∧ opFailTwice 3 = Except.ok 42
    ∧ withRetry opFailTwice 3 1000 = (Except.ok 42, [1000 * 1, 1000 * 2]) :=
  ⟨by decide, by decide, by decide,
    (withRetry_fail_twice_then_succeed opFailTwice
      (SteamError.api "attempt 1 failed" "NETWORK_ERROR")
      (SteamError.api "attempt 2 failed" "NETWORK_ERROR") 42 1000
      (by decide) (by decide) (by decide)).1⟩

/-- C9: the sharedfile existence check is a total boolean function of the
fetch outcome: it answers `false` exactly when the fetch threw or the
body contains one of the three literal failure phrases, `true`
otherwise. -/
theorem validateSharedfile_total_spec (r : Except String String) :
    validateSharedfile r = false ↔
      ((∃ msg, r = Except.error msg)
        ∨ (∃ html, r = Except.ok html
            ∧ (sContains html "There was a problem accessing the item" = true
              ∨ sContains html "That item does not exist" = true
              ∨ sContains html "error_message" = true))) := by
  cases r with
  | error msg =>
    constructor
    · intro _
      exact Or.inl ⟨msg, rfl⟩
    · intro _
      rfl
  | ok html =>
    constructor
    · intro h
      right
      refine ⟨html, rfl, ?_⟩
      by_contra hc
      push_neg at hc
      obtain ⟨hA, hB, hC⟩ := hc
      simp only [Bool.not_eq_true] at hA hB hC
      simp [validateSharedfile, hA, hB, hC] at h
    · rintro (⟨msg, hmsg⟩ | ⟨html2, hok, hph⟩)
      · exact Except.noConfusion hmsg
      · injection hok with he
        subst he
        rcases hph with h | h | h <;> simp [validateSharedfile, h]

/-- C10: a non-positive attempt ceiling makes `withRetry` throw the
generic `Unknown error occurred` error without consulting the wrapped
operation (the result is the same for every operation). -/
theorem withRetry_nonpositive_ceiling {T : Type}
    (op : Nat → Except SteamError T) (m : Int) (d : Nat) (hm : m ≤ 0) :
    withRetry op m d
      = (Except.error (SteamError.jsError "Unknown error occurred"), []) := by
  have ht : m.toNat = 0 := Int.toNat_of_nonpos hm
  simp [withRetry, ht, retryLoop]

/-- Witness for C10 at ceiling `0` and a succeeding operation. -/
theorem withRetry_nonpositive_ceiling_witness :
    (0 : Int) ≤ 0
    ∧ withRetry (fun _ => (Except.ok 7 : Except SteamError Nat)) 0 5
        = (Except.error (SteamError.jsError "Unknown error occurred"), []) :=
  ⟨by decide, withRetry_nonpositive_ceiling (fun _ => Except.ok 7) 0 5 (by decide)⟩

/-! ## Characterization lemmas for the classifier -/

/-- A tree carrying a `profile` key is never classified as empty. -/
theorem isEmptyResponse_of_profile (t : RawXMLParseResult)
    (p : FullProfileInfo) (hp : t.profile = some p) :
    isEmptyResponse (some t) = false := by
  simp [isEmptyResponse, hp]

/-- One-step unfolding of the classifier on a decoded (non-`null`)
tree. -/
theorem classifyParsed_some_unfold (url : String) (loc : Option String)
    (t : RawXMLParseResult) :
    classifyParsed url (some t) loc
      = if isEmptyResponse (some t) = true then
          Except.error (SteamError.emptyResponse "Steam returned empty response")
        else if isErrorResponse t = true then
          Except.error (interpretErrorEnvelope t)
        else
          match t.profile with
          | some profile =>
            if !hasMinimalProfileData profile then
              Except.error (SteamError.api "Profile missing required fields" "PARSE_ERROR")
            else
              Except.ok (SteamXMLResponse.profile (recoverCustomURL url profile loc))
          | none =>
            match t.memberList with
            | some g => Except.ok (SteamXMLResponse.group g)
            | none =>
              Except.error (SteamError.api "Unexpected response format from Steam" "PARSE_ERROR") :=
  rfl

/-- Classifier behaviour on a tree whose `profile` key is present and
which is not an error envelope. -/
theorem classifyParsed_profile_branch (url : String) (loc : Option String)
    (t : RawXMLParseResult) (p : FullProfileInfo)
    (hp : t.profile = some p) (he : isErrorResponse t = false) :
    classifyParsed url (some t) loc
      = if hasMinimalProfileData p then
          Except.ok (SteamXMLResponse.profile (recoverCustomURL url p loc))
        else
          Except.error (SteamError.api "Profile missing required fields" "PARSE_ERROR") := by
  rw [classifyParsed_some_unfold]
  rw [if_neg (by rw [isEmptyResponse_of_profile t p hp]; exact Bool.false_ne_true)]
  rw [if_neg (by rw [he]; exact Bool.false_ne_true)]
  rw [hp]
  by_cases hv : hasMinimalProfileData p = true
  · simp [hv]
  · simp only [Bool.not_eq_true] at hv
    simp [hv]

/-- Classifier behaviour on an error envelope. -/
theorem classifyParsed_error_branch (url : String) (loc : Option String)
    (t : RawXMLParseResult) (he : isErrorResponse t = true)
    (hne : isEmptyResponse (some t) = false) :
    classifyParsed url (some t) loc = Except.error (interpretErrorEnvelope t) := by
  rw [classifyParsed_some_unfold]
  rw [if_neg (by rw [hne]; exact Bool.false_ne_true)]
  rw [if_pos he]

/-- Inversion: a successful profile classification of a profile-keyed
tree returns exactly the recovered record. -/
theorem classifyParsed_ok_profile_elim (url : String) (loc : Option String)
    (t : RawXMLParseResult) (p q : FullProfileInfo)
    (hp : t.profile = some p)
    (hq : classifyParsed url (some t) loc = Except.ok (SteamXMLResponse.profile q)) :
    isErrorResponse t = false ∧ hasMinimalProfileData p = true
      ∧ q = recoverCustomURL url p loc := by
  by_cases he : isErrorResponse t = true
  · exfalso
    rw [classifyParsed_error_branch url loc t he
      (isEmptyResponse_of_profile t p hp)] at hq
    exact Except.noConfusion hq
  · simp only [Bool.not_eq_true] at he
    rw [classifyParsed_profile_branch url loc t p hp he] at hq
    by_cases hv : hasMinimalProfileData p = true
    · rw [hv] at hq
      simp at hq
      exact ⟨he, hv, hq.symm⟩
    · simp only [Bool.not_eq_true] at hv
      rw [hv] at hq
      simp at hq

/-! ## Claim theorems -/

/-- C1, counterexample: the validator accepts a candidate whose four
required fields are all present but empty sequences — presence as an
array is checked, non-emptiness is not (an empty JS array is truthy). -/
theorem hasMinimalProfileData_accepts_empty_seq :
    hasMinimalProfileData emptySeqProfile = true
    ∧ emptySeqProfile.steamID64 = some []
    ∧ emptySeqProfile.steamID = some []
    ∧ emptySeqProfile.onlineState = some []
    ∧ emptySeqProfile.privacyState = some [] := by
  decide

/-- C1, amended: the validator accepts a candidate profile tree exactly
when each of steamID64, steamID, onlineState, privacyState is present as
a sequence (possibly empty); a failing candidate makes the whole parse
fail with the `Profile missing required fields` parse error, and an
accepted candidate is returned as a profile that still satisfies the
validator — never as a degraded record. -/
theorem validator_gate_amended (p : FullProfileInfo) (t : RawXMLParseResult)
    (url : String) (loc : Option String)
    (hp : t.profile = some p) (he : isErrorResponse t = false) :
    (hasMinimalProfileData p = true ↔
        (p.steamID64.isSome = true ∧ p.steamID.isSome = true
          ∧ p.onlineState.isSome = true ∧ p.privacyState.isSome = true))
    ∧ (hasMinimalProfileData p = false →
        classifyParsed url (some t) loc
          = Except.error (SteamError.api "Profile missing required fields" "PARSE_ERROR"))
    ∧ (hasMinimalProfileData p = true →
        ∃ q, classifyParsed url (some t) loc = Except.ok (SteamXMLResponse.profile q)
          ∧ hasMinimalProfileData q = true) := by
  refine ⟨?_, ?_, ?_⟩
  · simp [hasMinimalProfileData, Bool.and_eq_true, and_assoc]
  · intro hv
    rw [classifyParsed_profile_branch url loc t p hp he, hv]
    simp
  · intro hv
    rw [classifyParsed_profile_branch url loc t p hp he, hv]
    refine ⟨recoverCustomURL url p loc, by simp, ?_⟩
    rcases recoverCustomURL_cases url p loc with h | ⟨c, h⟩
    · rw [h]
      exact hv
    · rw [h]
      exact hv

/-- Witness for the amended C1 at a concrete invalid candidate. -/
theorem validator_gate_amended_witness :
    hasMinimalProfileData invalidProfile = false
    ∧ classifyParsed "https://steamcommunity.com/id/someone?xml=1"
        (some (rawOfProfile invalidProfile)) none
        = Except.error (SteamError.api "Profile missing required fields" "PARSE_ERROR") :=
  ⟨by decide,
    (validator_gate_amended invalidProfile (rawOfProfile invalidProfile)
        "https://steamcommunity.com/id/someone?xml=1" none rfl rfl).2.1 (by decide)⟩

/-- C2, counterexample: on a valid non-public profile whose `customURL`
key is already present in the decoded body, the recovery step still runs
and overwrites the field with the segment taken from the request URL. -/
theorem recovery_overwrites_present_customURL :
    extractString privProfileWithCustom.privacyState ≠ some "public"
    ∧ privProfileWithCustom.customURL = some ["oldname"]
    ∧ classifyParsed "https://steamcommunity.com/id/newname?xml=1"
        (some (rawOfProfile privProfileWithCustom)) none
        = Except.ok (SteamXMLResponse.profile
            { privProfileWithCustom with customURL := some ["newname"] }) := by
  refine ⟨by decide, by decide, by decide⟩

/-- C2, amended: the recovery step runs if and only if the classified
profile is valid and its privacyState's text is not exactly `"public"`;
absence of the vanity-URL field is not part of the trigger (a present
field can be overwritten).  For a public profile the record — its
customURL field included — is returned exactly as decoded, with no
recovery attempted (the result does not depend on the redirect
outcome). -/
theorem recovery_trigger_amended (p : FullProfileInfo) (t : RawXMLParseResult)
    (url : String) (loc : Option String)
    (hp : t.profile = some p) (he : isErrorResponse t = false)
    (hv : hasMinimalProfileData p = true) :
    (extractString p.privacyState = some "public" →
        classifyParsed url (some t) loc = Except.ok (SteamXMLResponse.profile p))
    ∧ classifyParsed url (some t) loc
        = Except.ok (SteamXMLResponse.profile (recoverCustomURL url p loc)) := by
  constructor
  · intro hpub
    rw [classifyParsed_profile_branch url loc t p hp he, hv]
    simp [recoverCustomURL_public url p loc hpub]
  · rw [classifyParsed_profile_branch url loc t p hp he, hv]
    simp

/-- Witness for the amended C2 at a concrete public profile. -/
theorem recovery_trigger_amended_witness :
    extractString publicProfile.privacyState = some "public"
    ∧ classifyParsed "https://steamcommunity.com/id/someone?xml=1"
        (some (rawOfProfile publicProfile)) none
        = Except.ok (SteamXMLResponse.profile publicProfile) :=
  ⟨by decide,
    (recovery_trigger_amended publicProfile (rawOfProfile publicProfile)
        "https://steamcommunity.com/id/someone?xml=1" none rfl rfl (by decide)).1
      (by decide)⟩

/-- C3: a sufficiently long, non-blank body containing none of `<?xml`,
`<profile`, `<memberList`, fetched for a URL that does not target a
group endpoint, and containing none of the group-error markers the code
looks for, makes the pipeline raise the generic
`Invalid XML response from Steam` parse error — never a group-not-found
failure — regardless of the decoder and redirect outcomes. -/
theorem non_xml_generic_parse_error (url body : String)
    (decodeResult : Except String (Option RawXMLParseResult)) (loc : Option String)
    (h1 : trimIsEmpty body = false) (h2 : 10 ≤ body.length)
    (h3 : sContains body "<?xml" = false) (h4 : sContains body "<profile" = false)
    (h5 : sContains body "<memberList" = false)
    (h6 : sContains url "/groups/" = false)
    (h7 : sContains url "memberslistxml" = false)
    (h8 : sContains body "group could not be found" = false)
    (h9 : sContains body "group does not exist" = false)
    (h10 : sContains body "Group" = false)
    (h11 : sContains body "<html" = false ∨ sContains body "error" = false) :
    parseSteamXMLOnce url body decodeResult loc
      = Except.error (SteamError.api "Invalid XML response from Steam" "PARSE_ERROR") := by
  have hlen : ¬ (body.length < 10) := Nat.not_lt.mpr h2
  have hpre : preParseCheck url body
      = some (SteamError.api "Invalid XML response from Steam" "PARSE_ERROR") := by
    unfold preParseCheck
    rw [if_neg (by simp [h1, hlen])]
    rw [if_pos (by simp [h3, h4, h5])]
    rw [if_neg (by simp [h6, h7])]
    rw [if_neg (by rcases h11 with h | h <;> simp [h3, h8, h9, h10, h])]
  unfold parseSteamXMLOnce
  rw [hpre]

/-- Witness for C3 at a concrete HTML-free body. -/
theorem non_xml_generic_parse_error_witness :
    trimIsEmpty "hello steam world!" = false
    ∧ 10 ≤ ("hello steam world!" : String).length
    ∧ parseSteamXMLOnce "https://steamcommunity.com/id/someone?xml=1"
        "hello steam world!" (Except.ok none) none
        = Except.error (SteamError.api "Invalid XML response from Steam" "PARSE_ERROR") :=
  ⟨by decide, by decide,
    non_xml_generic_parse_error "https://steamcommunity.com/id/someone?xml=1"
      "hello steam world!" (Except.ok none) none (by decide) (by decide) (by decide)
      (by decide) (by decide) (by decide) (by decide) (by decide) (by decide)
      (by decide) (Or.inl (by decide))⟩

/-- C4, counterexample: at the envelope `error: ['']` the extracted
message is the empty string, yet the generic error carries
`Unknown error` — the JS `|| 'Unknown error'` default also replaces the
falsy empty string, so the original message is not carried verbatim. -/
theorem empty_error_message_not_verbatim :
    (rawErrorEnvelope "").response.bind ErrorEnvelope.error = some [""]
    ∧ extractString ((rawErrorEnvelope "").response.bind ErrorEnvelope.error)
        = some ""
    ∧ classifyParsed "https://steamcommunity.com/id/x?xml=1"
        (some (rawErrorEnvelope "")) none
        = Except.error (SteamError.api "Unknown error" "PARSE_ERROR")
    ∧ ("Unknown error" : String) ≠ "" := by
  decide

/-- C4, amended: for every error envelope whose `error` key is present,
the interpreter forms the message as the first element of the error
sequence, defaulting to `Unknown error` when extraction yields nothing
or the empty string (the JS falsy `||`); it then checks the substring
rules in order — the three profile phrases give ProfileNotFound, else
the group phrase gives GroupNotFound, else a generic PARSE_ERROR
carrying that (defaulted) message verbatim. -/
theorem error_message_interpreter_order (t : RawXMLParseResult)
    (env : ErrorEnvelope) (msg : String) (url : String) (loc : Option String)
    (hr : t.response = some env) (henv : env.error.isSome = true)
    (hm : orUnknownError (extractString env.error) = msg) :
    classifyParsed url (some t) loc
      = (if (sContains msg "profile could not be found"
            || sContains msg "The specified profile could not be found"
            || sContains msg "Failed loading profile data") = true then
          Except.error (SteamError.profileNotFound "profile")
        else if sContains msg "group could not be found" = true then
          Except.error (SteamError.groupNotFound "group")
        else
          Except.error (SteamError.api msg "PARSE_ERROR")) := by
  have herr : isErrorResponse t = true := by
    simp [isErrorResponse, hr, henv]
  have hne : isEmptyResponse (some t) = false := by
    simp [isEmptyResponse, hr]
  rw [classifyParsed_error_branch url loc t herr hne]
  have hbind : t.response.bind ErrorEnvelope.error = env.error := by
    rw [hr]
    rfl
  have hmsg : orUnknownError (extractString (t.response.bind ErrorEnvelope.error))
      = msg := by
    rw [hbind]
    exact hm
  unfold interpretErrorEnvelope
  rw [hmsg]
  by_cases hA : (sContains msg "profile could not be found"
      || sContains msg "The specified profile could not be found"
      || sContains msg "Failed loading profile data") = true
  · rw [if_pos hA, if_pos hA]
  · rw [if_neg hA, if_neg hA]
    by_cases hB : sContains msg "group could not be found" = true
    · rw [if_pos hB, if_pos hB]
    · rw [if_neg hB, if_neg hB]

/-- Witness for the amended C4 at a concrete profile-not-found
envelope. -/
theorem error_message_interpreter_order_witness :
    classifyParsed "https://steamcommunity.com/id/x?xml=1"
        (some (rawErrorEnvelope "The specified profile could not be found.")) none
      = Except.error (SteamError.profileNotFound "profile") := by
  rw [error_message_interpreter_order
    (rawErrorEnvelope "The specified profile could not be found.")
    { error := some ["The specified profile could not be found."] }
    "The specified profile could not be found."
    "https://steamcommunity.com/id/x?xml=1" none rfl rfl (by decide)]
  decide

/-- C5, counterexample: the classify-validate-recover stage is not a
pure function of the decoded tree alone — the same valid private tree
classified under two different request URLs yields structurally
different results (the recovered customURL differs). -/
theorem classification_depends_on_url :
    classifyParsed "https://steamcommunity.com/id/alice?xml=1"
        (some (rawOfProfile privProfileNoCustom)) none
      ≠ classifyParsed "https://steamcommunity.com/id/bob?xml=1"
        (some (rawOfProfile privProfileNoCustom)) none := by
  decide

/-- C5, amended: the classification tag (which of failure, profile,
group is produced, and the full payload in every non-profile case) is a
pure function of the decoded tree, independent of the request URL and of
the redirect outcome; full structural equality moreover holds whenever
the tree is not a non-public profile, i.e. whenever the recovery step
cannot run. -/
theorem classification_shape_url_independent (parsed : Option RawXMLParseResult)
    (u1 u2 : String) (l1 l2 : Option String) :
    shapeOf (classifyParsed u1 parsed l1) = shapeOf (classifyParsed u2 parsed l2)
    ∧ ((∀ p : FullProfileInfo, parsed.bind RawXMLParseResult.profile = some p →
          extractString p.privacyState = some "public") →
        classifyParsed u1 parsed l1 = classifyParsed u2 parsed l2) := by
  cases parsed with
  | none => exact ⟨rfl, fun _ => rfl⟩
  | some t =>
    by_cases hemp : isEmptyResponse (some t) = true
    · have h1 : classifyParsed u1 (some t) l1
          = Except.error (SteamError.emptyResponse "Steam returned empty response") := by
        rw [classifyParsed_some_unfold, if_pos hemp]
      have h2 : classifyParsed u2 (some t) l2
          = Except.error (SteamError.emptyResponse "Steam returned empty response") := by
        rw [classifyParsed_some_unfold, if_pos hemp]
      rw [h1, h2]
      exact ⟨rfl, fun _ => rfl⟩
    · by_cases herr : isErrorResponse t = true
      · have hne : isEmptyResponse (some t) = false := by
          simpa using hemp
        rw [classifyParsed_error_branch u1 l1 t herr hne,
          classifyParsed_error_branch u2 l2 t herr hne]
        exact ⟨rfl, fun _ => rfl⟩
      · simp only [Bool.not_eq_true] at herr
        cases hp : t.profile with
        | some p =>
          rw [classifyParsed_profile_branch u1 l1 t p hp herr,
            classifyParsed_profile_branch u2 l2 t p hp herr]
          by_cases hv : hasMinimalProfileData p = true
          · rw [if_pos hv, if_pos hv]
            constructor
            · rfl
            · intro hpub
              have hpd : extractString p.privacyState = some "public" :=
                hpub p hp
              rw [recoverCustomURL_public u1 p l1 hpd,
                recoverCustomURL_public u2 p l2 hpd]
          · rw [if_neg hv, if_neg hv]
            exact ⟨rfl, fun _ => rfl⟩
        | none =>
          have key : ∀ (u : String) (l : Option String),
              classifyParsed u (some t) l
                = (if isEmptyResponse (some t) = true then
                    Except.error (SteamError.emptyResponse "Steam returned empty response")
                  else if isErrorResponse t = true then
                    Except.error (interpretErrorEnvelope t)
                  else
                    match t.memberList with
                    | some g => Except.ok (SteamXMLResponse.group g)
                    | none =>
                      Except.error
                        (SteamError.api "Unexpected response format from Steam" "PARSE_ERROR")) := by
            intro u l
            rw [classifyParsed_some_unfold, hp]
          rw [key u1 l1, key u2 l2]
          exact ⟨rfl, fun _ => rfl⟩

/-- Witness for the amended C5 at a concrete public profile and two
URLs. -/
theorem classification_shape_url_independent_witness :
    shapeOf (classifyParsed "https://steamcommunity.com/id/alice?xml=1"
        (some (rawOfProfile publicProfile)) none)
      = shapeOf (classifyParsed "https://steamcommunity.com/id/bob?xml=1"
          (some (rawOfProfile publicProfile)) none)
    ∧ classifyParsed "https://steamcommunity.com/id/alice?xml=1"
        (some (rawOfProfile publicProfile)) none
      = classifyParsed "https://steamcommunity.com/id/bob?xml=1"
          (some (rawOfProfile publicProfile)) none := by
  have h := classification_shape_url_independent (some (rawOfProfile publicProfile))
    "https://steamcommunity.com/id/alice?xml=1"
    "https://steamcommunity.com/id/bob?xml=1" none none
  refine ⟨h.1, h.2 ?_⟩
  intro p hp
  injection hp with he
  rw [← he]
  decide

/-- C6, counterexample: a URL that contains `/id/` but not the literal
`steamcommunity.com/id/` prefix the code tests for does not trigger the
derivation at all — the claim's recovered value (final path segment with
the `?xml=1` suffix stripped, here `alice`) is not produced. -/
theorem id_endpoint_recovery_literal_cex :
    sContains "https://example.org/id/alice?xml=1" "/id/" = true
    ∧ extractString privProfileNoCustom.privacyState ≠ some "public"
    ∧ privProfileNoCustom.customURL = none
    ∧ (jsSplit "https://example.org/id/alice?xml=1" '/').getLast? = some "alice?xml=1"
    ∧ replaceFirstEmpty "alice?xml=1" "?xml=1" = "alice"
    ∧ classifyParsed "https://example.org/id/alice?xml=1"
        (some (rawOfProfile privProfileNoCustom)) none
        = Except.ok (SteamXMLResponse.profile privProfileNoCustom)
    ∧ privProfileNoCustom.customURL ≠ some ["alice"] := by
  decide

/-- C6, amended: for a valid non-public profile with no vanity-URL
field, requested through a URL containing `steamcommunity.com/id/` (and
not `steamcommunity.com/profiles/`), the recovered vanity URL is the
final path segment of the request URL with the first occurrence of
`?xml=1` removed (left absent when that value is empty), and the result
does not depend on the redirect outcome — no network call contributes to
the derivation. -/
theorem id_endpoint_recovery_amended (p : FullProfileInfo)
    (t : RawXMLParseResult) (url : String) (loc : Option String)
    (hp : t.profile = some p) (he : isErrorResponse t = false)
    (hv : hasMinimalProfileData p = true)
    (hpriv : extractString p.privacyState ≠ some "public")
    (hcu : p.customURL = none)
    (hid : sContains url "steamcommunity.com/id/" = true)
    (hprof : sContains url "steamcommunity.com/profiles/" = false) :
    (∀ l1 l2 : Option String,
        classifyParsed url (some t) l1 = classifyParsed url (some t) l2)
    ∧ classifyParsed url (some t) loc
        = Except.ok (SteamXMLResponse.profile
            (if idSegment url = "" then p
            else { p with customURL := some [idSegment url] })) := by
  have hisSome : p.privacyState.isSome = true := by
    simp only [hasMinimalProfileData, Bool.and_eq_true] at hv
    exact hv.2
  have hcond : (p.privacyState.isSome
      && (extractString p.privacyState != some "public")) = true := by
    rw [hisSome]
    simp only [Bool.true_and, bne_iff_ne, ne_eq]
    exact hpriv
  have hrec : ∀ l : Option String, recoverCustomURL url p l
      = (if idSegment url = "" then p
        else { p with customURL := some [idSegment url] }) := by
    intro l
    unfold recoverCustomURL
    rw [if_pos hcond]
    simp only [hprof, Bool.false_eq_true, if_false, hid, if_true]
    by_cases hc : idSegment url = ""
    · simp [hc]
    · simp [hc]
  have hv' : hasMinimalProfileData p = true := by
    simp only [hasMinimalProfileData, Bool.and_eq_true]
    simp only [hasMinimalProfileData, Bool.and_eq_true] at hv
    exact hv
  constructor
  · intro l1 l2
    rw [classifyParsed_profile_branch url l1 t p hp he,
      classifyParsed_profile_branch url l2 t p hp he,
      if_pos hv', if_pos hv', hrec l1, hrec l2]
  · rw [classifyParsed_profile_branch url loc t p hp he, if_pos hv', hrec loc]

/-- Witness for the amended C6 at a concrete private profile and `/id/`
URL. -/
theorem id_endpoint_recovery_amended_witness :
    classifyParsed "https://steamcommunity.com/id/alice?xml=1"
        (some (rawOfProfile privProfileNoCustom)) none
      = Except.ok (SteamXMLResponse.profile
          (if idSegment "https://steamcommunity.com/id/alice?xml=1" = ""
            then privProfileNoCustom
            else { privProfileNoCustom with
                    customURL := some [idSegment "https://steamcommunity.com/id/alice?xml=1"] })) :=
  (id_endpoint_recovery_amended privProfileNoCustom
    (rawOfProfile privProfileNoCustom) "https://steamcommunity.com/id/alice?xml=1"
    none rfl rfl (by decide) (by decide) rfl (by decide) (by decide)).2

/-- C8: between construction of the profile record from the decoded tree
and its return, the only field the pipeline can change is the vanity-URL
field, which on successful recovery is a one-element sequence; every
other field of the returned record equals the decoded one. -/
theorem recovery_frame_only_customURL (t : RawXMLParseResult) (url : String)
    (loc : Option String) (p q : FullProfileInfo)
    (hp : t.profile = some p)
    (hq : classifyParsed url (some t) loc = Except.ok (SteamXMLResponse.profile q)) :
    q = { p with customURL := q.customURL }
    ∧ (q.customURL = p.customURL ∨ ∃ c, q.customURL = some [c]) := by
  obtain ⟨-, -, hqeq⟩ := classifyParsed_ok_profile_elim url loc t p q hp hq
  subst hqeq
  rcases recoverCustomURL_cases url p loc with h | ⟨c, h⟩
  · rw [h]
    exact ⟨rfl, Or.inl rfl⟩
  · rw [h]
    exact ⟨rfl, Or.inr ⟨c, rfl⟩⟩

/-- Witness for C8 at a concrete recovery that fires. -/
theorem recovery_frame_only_customURL_witness :
    ({ privProfileNoCustom with customURL := some ["alice"] } : FullProfileInfo)
      = { privProfileNoCustom with
            customURL := ({ privProfileNoCustom with
              customURL := some ["alice"] } : FullProfileInfo).customURL }
    ∧ (({ privProfileNoCustom with
          customURL := some ["alice"] } : FullProfileInfo).customURL
          = privProfileNoCustom.customURL
        ∨ ∃ c, ({ privProfileNoCustom with
            customURL := some ["alice"] } : FullProfileInfo).customURL = some [c]) :=
  recovery_frame_only_customURL (rawOfProfile privProfileNoCustom)
    "https://steamcommunity.com/id/alice?xml=1" none privProfileNoCustom
    { privProfileNoCustom with customURL := some ["alice"] } rfl (by decide)

end SteamResolver
